import Mathlib

/-!
Shallow embedding of the install/uninstall/quota bookkeeping and notification
subsystem of `Menu.py` (class `GameLauncher`, plus the notification countdown
performed by `Menu.draw_notification`).

Modelling conventions:
- Python integers are `Int`.
- The catalog `self.games` (a Python dict from game id to metadata) is an
  association list `List (String × GameDescriptor)`; a dict lookup
  `self.games[k]` is `List.lookup`, and a missing key (Python `KeyError`,
  an uncaught exception) makes the embedded operation return `none`.
- The persisted file `installed.json` is a `FileState`: missing
  (`FileNotFoundError`), malformed (`json.JSONDecodeError`), or a valid
  JSON array of identifier strings.
- `self.notification` is `Option Notification`: the single notification
  slot, `none` when no notification is live.
-/

namespace MultiGames

/-- `STORAGE_LIMIT = 10  # MB` (Menu.py line 16). -/
def STORAGE_LIMIT : Int := 10

/-- Catalog metadata of one game, as built by `load_game_list`
(Menu.py lines 104-109).  The `module` field (the loaded Python module)
plays no role in the bookkeeping logic and is not modelled. -/
structure GameDescriptor where
  name : String
  size : Int
  image : String
deriving Repr, DecidableEq

/-- The catalog `self.games`: an association list standing for the Python
dict from game id to descriptor built by `load_game_list`. -/
abbrev Catalog := List (String × GameDescriptor)

/-- Notification kinds: the `type` strings used by `show_notification`
callers ('info', 'warning', 'success', 'error'). -/
inductive NotifKind where
  | info
  | warning
  | success
  | error
deriving Repr, DecidableEq

/-- The dict built by `show_notification` (Menu.py lines 151-155):
message, type, and the countdown timer. -/
structure Notification where
  message : String
  kind : NotifKind
  timer : Int
deriving Repr, DecidableEq

/-- State of the persisted file `installed.json`. -/
inductive FileState where
  | missing
  | malformed
  | valid (ids : List String)
deriving Repr, DecidableEq

/-- The mutable state of a `GameLauncher` object relevant to the claims,
together with the external persisted file it reads and writes. -/
structure GameLauncher where
  games : Catalog
  installed : List String
  notification : Option Notification
  file : FileState
deriving Repr, DecidableEq

/-- `load_installed` (Menu.py lines 112-117): read `installed.json`;
on `FileNotFoundError` or `json.JSONDecodeError` return `[]`. -/
def load_installed : FileState → List String
  | .missing => []
  | .malformed => []
  | .valid ids => ids

/-- `save_installed` (Menu.py lines 119-121): overwrite `installed.json`
with the current installed list. -/
def save_installed (s : GameLauncher) : GameLauncher :=
  { s with file := .valid s.installed }

/-- One step of the sum in `get_used_space`: add `self.games[id]['size']`
to the partial sum, propagating a `KeyError` (`none`) from either side. -/
def used_step (games : Catalog) (id : String) (acc : Option Int) : Option Int :=
  match games.lookup id, acc with
  | some g, some rest => some (g.size + rest)
  | _, _ => none

/-- `get_used_space` (Menu.py lines 123-124):
`sum(self.games[game]['size'] for game in self.installed)`.
Each `self.games[game]` is a dict lookup that raises `KeyError` when the
installed id is absent from the catalog; hence the result is `none`
(uncaught exception) as soon as any installed id is an orphan. -/
def get_used_space (games : Catalog) (installed : List String) : Option Int :=
  installed.foldr (used_step games) (some 0)

/-- `show_notification` (Menu.py lines 150-155): unconditionally replace
the notification slot with a fresh notification whose timer is 120. -/
def show_notification (s : GameLauncher) (message : String) (type : NotifKind) :
    GameLauncher :=
  { s with notification := some ⟨message, type, 120⟩ }

/-- `install_game` (Menu.py lines 126-140).  Returns `none` when the Python
code would raise an uncaught exception (a `KeyError` from the catalog
lookup `self.games[game_id]` or from inside `get_used_space`), otherwise
`some` of the new state and the returned boolean. -/
def install_game (s : GameLauncher) (game_id : String) :
    Option (GameLauncher × Bool) :=
  if game_id ∈ s.installed then
    some (show_notification s "Game already installed!" .warning, false)
  else
    match s.games.lookup game_id with
    | none => none
    | some g =>
      match get_used_space s.games s.installed with
      | none => none
      | some used =>
        if used + g.size > STORAGE_LIMIT then
          some (show_notification s
              ("Need " ++ toString (g.size - (STORAGE_LIMIT - used)) ++
                "MB more space!") .error,
            false)
        else
          some (show_notification
              (save_installed { s with installed := s.installed ++ [game_id] })
              (g.name ++ " installed!") .success,
            true)

/-- `uninstall_game` (Menu.py lines 142-148).  When the id is installed the
code removes it and saves, then builds the notification message with
`self.games[game_id]['name']`: an orphan id raises `KeyError` there
(modelled as `none`).  When the id is not installed it returns `False`
without touching the notification slot. -/
def uninstall_game (s : GameLauncher) (game_id : String) :
    Option (GameLauncher × Bool) :=
  if game_id ∈ s.installed then
    let s2 := save_installed { s with installed := s.installed.erase game_id }
    match s2.games.lookup game_id with
    | none => none
    | some g => some (show_notification s2 (g.name ++ " removed!") .success, true)
  else
    some (s, false)

/-- The notification countdown performed once per rendered frame by
`Menu.draw_notification` (Menu.py lines 295-297): decrement the timer,
clear the notification once the timer is `<= 0`.  A `none` slot is left
untouched (the code is guarded by `if self.launcher.notification`). -/
def tick_notification : Option Notification → Option Notification
  | none => none
  | some nt =>
    let t := nt.timer - 1
    if t ≤ 0 then none else some { nt with timer := t }

/-! ### Helper lemmas about `get_used_space` -/

/-- A `KeyError` in the partial sum propagates through one more step. -/
theorem used_step_none (games : Catalog) (id : String) :
    used_step games id none = none := by
  unfold used_step
  cases games.lookup id <;> rfl

/-- A `KeyError` on the catalog lookup makes the step raise. -/
theorem used_step_lookup_none (games : Catalog) (id : String) (acc : Option Int)
    (h : games.lookup id = none) : used_step games id acc = none := by
  unfold used_step
  rw [h]

/-- A successful lookup adds the declared size to a defined partial sum. -/
theorem used_step_some (games : Catalog) (id : String) (g : GameDescriptor)
    (r : Int) (h : games.lookup id = some g) :
    used_step games id (some r) = some (g.size + r) := by
  unfold used_step
  rw [h]

/-- Unfolding `get_used_space` over a non-empty list. -/
theorem get_used_space_cons (games : Catalog) (a : String) (l : List String) :
    get_used_space games (a :: l) = used_step games a (get_used_space games l) :=
  rfl

/-- A `KeyError` in the partial sum propagates through the whole fold. -/
theorem foldr_used_step_none (games : Catalog) (l : List String) :
    l.foldr (used_step games) none = none := by
  induction l with
  | nil => rfl
  | cons a l ih =>
    rw [List.foldr_cons, ih, used_step_none]

/-- Starting the fold from `some c` shifts a defined total by `c` and
preserves an undefined one. -/
theorem foldr_used_step_shift (games : Catalog) (l : List String) (c : Int) :
    l.foldr (used_step games) (some c) =
      (get_used_space games l).map (fun u => u + c) := by
  induction l with
  | nil => simp [get_used_space]
  | cons a l ih =>
    rw [List.foldr_cons, ih, get_used_space_cons]
    cases hl : games.lookup a with
    | none =>
      rw [used_step_lookup_none games a _ hl, used_step_lookup_none games a _ hl]
      rfl
    | some g =>
      cases hu : get_used_space games l with
      | none =>
        rw [Option.map_none', used_step_none]
        rfl
      | some u =>
        rw [Option.map_some', used_step_some games a g _ hl,
          used_step_some games a g _ hl, Option.map_some']
        ring_nf

/-- Appending one installed id: when the id is in the catalog the used
space grows by its declared size, otherwise the sum raises. -/
theorem get_used_space_append (games : Catalog) (l : List String) (id : String) :
    get_used_space games (l ++ [id]) =
      match games.lookup id with
      | some g => (get_used_space games l).map (fun u => u + g.size)
      | none => none := by
  unfold get_used_space
  rw [List.foldr_append]
  cases hl : games.lookup id with
  | none =>
    rw [show List.foldr (used_step games) (some 0) [id] = none by
      simpa using used_step_lookup_none games id (some 0) hl]
    exact foldr_used_step_none games l
  | some g =>
    rw [show List.foldr (used_step games) (some 0) [id] = some g.size by
      simpa using used_step_some games id g 0 hl]
    exact foldr_used_step_shift games l g.size

/-- An orphan installed id makes `get_used_space` raise (`none`). -/
theorem get_used_space_orphan (games : Catalog) (l : List String) (id : String)
    (hmem : id ∈ l) (horph : games.lookup id = none) :
    get_used_space games l = none := by
  induction l with
  | nil => cases hmem
  | cons a l ih =>
    rw [get_used_space_cons]
    rcases List.mem_cons.mp hmem with h | h
    · subst h
      exact used_step_lookup_none games _ _ horph
    · rw [ih h]
      exact used_step_none games a

/-- When every installed id is in the catalog, `get_used_space` returns
the sum of the catalog-declared sizes of the installed ids. -/
theorem get_used_space_all_present (games : Catalog) (l : List String)
    (h : ∀ id ∈ l, (games.lookup id).isSome) :
    get_used_space games l =
      some ((l.map (fun id => ((games.lookup id).elim 0 GameDescriptor.size))).sum) := by
  induction l with
  | nil => rfl
  | cons a l ih =>
    have ha : (games.lookup a).isSome := h a (List.mem_cons_self a l)
    obtain ⟨g, hg⟩ := Option.isSome_iff_exists.mp ha
    rw [get_used_space_cons, ih (fun id hid => h id (List.mem_cons_of_mem a hid)),
      used_step_some games a g _ hg]
    simp [hg]

/-! ### Claim theorems -/

/-- Claim C1, counterexample: with an empty catalog and the orphan id "x"
installed, `get_used_space` raises an uncaught `KeyError` (result `none`).
This refutes the claim that orphan ids are silently excluded from the sum
and that `usedSpace()` never fails when orphan ids exist. -/
theorem used_space_orphan_raises_cex :
    get_used_space ([] : Catalog) ["x"] = none := by decide

/-- Claim C1, amended: `usedSpace()` returns the sum of the
catalog-declared sizes of the installed ids when every installed id is
present in the catalog; when some installed id is absent from the catalog
(an orphan id), `usedSpace()` raises an unhandled lookup error (modelled
as `none`) instead of silently excluding it. -/
theorem used_space_amended (games : Catalog) (installed : List String) :
    ((∀ id ∈ installed, (games.lookup id).isSome) →
      get_used_space games installed =
        some ((installed.map
          (fun id => ((games.lookup id).elim 0 GameDescriptor.size))).sum)) ∧
    ((∃ id ∈ installed, games.lookup id = none) →
      get_used_space games installed = none) := by
  constructor
  · exact get_used_space_all_present games installed
  · rintro ⟨id, hmem, horph⟩
    exact get_used_space_orphan games installed id hmem horph

/-- Witness for `used_space_amended`: a one-game catalog, first with its
own id installed (sum 4), then with an orphan id installed (raises). -/
theorem used_space_amended_witness :
    get_used_space [("a", (⟨"A", 4, "i"⟩ : GameDescriptor))] ["a"] =
      some ((["a"].map (fun id =>
        ((List.lookup id [("a", (⟨"A", 4, "i"⟩ : GameDescriptor))]).elim 0
          GameDescriptor.size))).sum) ∧
    get_used_space [("a", (⟨"A", 4, "i"⟩ : GameDescriptor))] ["x"] = none :=
  ⟨(used_space_amended [("a", ⟨"A", 4, "i"⟩)] ["a"]).1 (by decide),
   (used_space_amended [("a", ⟨"A", 4, "i"⟩)] ["x"]).2 ⟨"x", by decide, by decide⟩⟩

/-- Claim C2: every successful `install_game` leaves a state whose used
space is defined and at most `STORAGE_LIMIT`, and every rejected
`install_game` leaves the installed list and the persisted file unchanged.
The state `s` is universally quantified, so the invariant holds after
every successful install of any install/uninstall sequence, and a
quota-exceeding install never changes the persisted state. -/
theorem install_quota_invariant (s : GameLauncher) (id : String)
    (s2 : GameLauncher) (ok : Bool) (h : install_game s id = some (s2, ok)) :
    (ok = true →
      ∃ u, get_used_space s2.games s2.installed = some u ∧ u ≤ STORAGE_LIMIT) ∧
    (ok = false → s2.installed = s.installed ∧ s2.file = s.file) := by
  unfold install_game at h
  by_cases hmem : id ∈ s.installed
  · rw [if_pos hmem] at h
    simp only [Option.some.injEq, Prod.mk.injEq] at h
    obtain ⟨hs, hok⟩ := h
    subst hs
    subst hok
    exact ⟨fun ht => absurd ht (by decide), fun _ => ⟨rfl, rfl⟩⟩
  · rw [if_neg hmem] at h
    cases hg : s.games.lookup id with
    | none => simp [hg] at h
    | some g =>
      simp only [hg] at h
      cases hu : get_used_space s.games s.installed with
      | none => simp [hu] at h
      | some u =>
        simp only [hu] at h
        by_cases hover : u + g.size > STORAGE_LIMIT
        · rw [if_pos hover] at h
          simp only [Option.some.injEq, Prod.mk.injEq] at h
          obtain ⟨hs, hok⟩ := h
          subst hs
          subst hok
          exact ⟨fun ht => absurd ht (by decide), fun _ => ⟨rfl, rfl⟩⟩
        · rw [if_neg hover] at h
          simp only [Option.some.injEq, Prod.mk.injEq] at h
          obtain ⟨hs, hok⟩ := h
          subst hs
          subst hok
          constructor
          · intro _
            refine ⟨u + g.size, ?_, not_lt.mp hover⟩
            show get_used_space s.games (s.installed ++ [id]) = some (u + g.size)
            rw [get_used_space_append]
            simp [hg, hu]
          · intro hf
            exact absurd hf (by decide)

/-- Witness for `install_quota_invariant`: installing "a" (size 4) into an
empty library succeeds and the resulting used space respects the quota. -/
theorem install_quota_invariant_witness :
    ∃ u, get_used_space [("a", (⟨"A", 4, "i"⟩ : GameDescriptor))] ["a"] = some u ∧
      u ≤ STORAGE_LIMIT :=
  (install_quota_invariant
      ⟨[("a", ⟨"A", 4, "i"⟩)], [], none, FileState.missing⟩ "a"
      ⟨[("a", ⟨"A", 4, "i"⟩)], ["a"],
        some ⟨"A installed!", NotifKind.success, 120⟩, FileState.valid ["a"]⟩
      true (by decide)).1 rfl

/-- Claim C3: when the id is a catalog key, is not installed, the used
space is defined, and the install would exceed the quota, `install_game`
returns `False` (InsufficientSpace), sets an error-kind notification whose
message carries exactly the deficit `size - (STORAGE_LIMIT - used)`, and
leaves the installed list and the persisted file unchanged (the result
state differs from `s` only in the notification slot). -/
theorem install_insufficient_space (s : GameLauncher) (id : String)
    (g : GameDescriptor) (u : Int) (hmem : id ∉ s.installed)
    (hg : s.games.lookup id = some g)
    (hu : get_used_space s.games s.installed = some u)
    (hover : u + g.size > STORAGE_LIMIT) :
    install_game s id =
      some ({ s with
              notification := some ⟨"Need " ++
                toString (g.size - (STORAGE_LIMIT - u)) ++ "MB more space!",
                NotifKind.error, 120⟩ }, false) := by
  unfold install_game
  rw [if_neg hmem]
  simp only [hg, hu]
  rw [if_pos hover]
  rfl

/-- Witness for `install_insufficient_space`: game "a" of size 11 against
an empty library (used 0, limit 10): rejected with deficit 1. -/
theorem install_insufficient_space_witness :
    install_game ⟨[("a", (⟨"A", 11, "i"⟩ : GameDescriptor))], [], none,
        FileState.missing⟩ "a" =
      some ({ games := [("a", ⟨"A", 11, "i"⟩)], installed := [],
              notification := some
                ⟨"Need " ++ toString ((11 : Int) - (STORAGE_LIMIT - 0)) ++
                  "MB more space!", NotifKind.error, 120⟩,
              file := FileState.missing }, false) :=
  install_insufficient_space
    ⟨[("a", ⟨"A", 11, "i"⟩)], [], none, FileState.missing⟩ "a" ⟨"A", 11, "i"⟩ 0
    (by simp) (by decide) (by decide) (by decide)

/-- Claim C4: installing an already-installed id returns `False`
(AlreadyInstalled) and sets a warning-kind notification; the result state
differs from `s` only in the notification slot, so the installed list (in
particular its length) and the persisted file are unchanged and no
duplicate is appended. -/
theorem install_already_installed (s : GameLauncher) (id : String)
    (hmem : id ∈ s.installed) :
    install_game s id =
      some ({ s with
              notification := some ⟨"Game already installed!",
                NotifKind.warning, 120⟩ }, false) := by
  unfold install_game
  rw [if_pos hmem]
  rfl

/-- Witness for `install_already_installed`: reinstalling "a" when it is
already the sole installed id. -/
theorem install_already_installed_witness :
    install_game ⟨[("a", (⟨"A", 4, "i"⟩ : GameDescriptor))], ["a"], none,
        FileState.valid ["a"]⟩ "a" =
      some ({ games := [("a", ⟨"A", 4, "i"⟩)], installed := ["a"],
              notification :=
                some ⟨"Game already installed!", NotifKind.warning, 120⟩,
              file := FileState.valid ["a"] }, false) :=
  install_already_installed
    ⟨[("a", ⟨"A", 4, "i"⟩)], ["a"], none, FileState.valid ["a"]⟩ "a" (by simp)

/-- Claim C5: a quota-fitting install of a not-yet-installed catalog id
appends the id at the end of the installed list, persists exactly the new
list, sets a success-kind notification, and returns `True`; the used space
of the resulting state is the old used space plus the declared size. -/
theorem install_success (s : GameLauncher) (id : String) (g : GameDescriptor)
    (u : Int) (hmem : id ∉ s.installed) (hg : s.games.lookup id = some g)
    (hu : get_used_space s.games s.installed = some u)
    (hfit : u + g.size ≤ STORAGE_LIMIT) :
    install_game s id =
      some ({ s with
              installed := s.installed ++ [id],
              file := FileState.valid (s.installed ++ [id]),
              notification := some ⟨g.name ++ " installed!",
                NotifKind.success, 120⟩ }, true) ∧
    get_used_space s.games (s.installed ++ [id]) = some (u + g.size) := by
  constructor
  · unfold install_game
    rw [if_neg hmem]
    simp only [hg, hu]
    rw [if_neg (not_lt.mpr hfit)]
    rfl
  · rw [get_used_space_append]
    simp [hg, hu]

/-- Witness for `install_success`: installing "a" (size 4) into an empty
library of a one-game catalog. -/
theorem install_success_witness :
    install_game ⟨[("a", (⟨"A", 4, "i"⟩ : GameDescriptor))], [], none,
        FileState.missing⟩ "a" =
      some ({ games := [("a", ⟨"A", 4, "i"⟩)], installed := [] ++ ["a"],
              notification := some ⟨"A installed!", NotifKind.success, 120⟩,
              file := FileState.valid ([] ++ ["a"]) }, true) ∧
    get_used_space [("a", (⟨"A", 4, "i"⟩ : GameDescriptor))] ([] ++ ["a"]) =
      some (0 + 4) :=
  install_success ⟨[("a", ⟨"A", 4, "i"⟩)], [], none, FileState.missing⟩ "a"
    ⟨"A", 4, "i"⟩ 0 (by simp) (by decide) (by decide) (by decide)

/-- Claim C6, counterexample: uninstalling the installed orphan id "x"
(absent from the catalog) does not return success: the code raises an
uncaught `KeyError` while building the notification message
`self.games[game_id]['name']` (modelled as `none`), refuting the claim
that every installed id yields success with a success notification. -/
theorem uninstall_orphan_raises_cex :
    uninstall_game ⟨[], ["x"], none, FileState.valid ["x"]⟩ "x" = none := by
  decide

/-- Claim C6, amended: uninstalling an absent id returns `False`
(NotInstalled) and leaves the whole state — notification slot included —
unchanged; uninstalling an installed id that is present in the catalog
removes its first occurrence, persists the new list, sets a success-kind
notification and returns `True`; uninstalling an installed id absent from
the catalog raises an uncaught lookup error instead of returning success. -/
theorem uninstall_amended (s : GameLauncher) (id : String) :
    (id ∉ s.installed → uninstall_game s id = some (s, false)) ∧
    (∀ g, id ∈ s.installed → s.games.lookup id = some g →
      uninstall_game s id =
        some ({ s with
                installed := s.installed.erase id,
                file := FileState.valid (s.installed.erase id),
                notification := some ⟨g.name ++ " removed!",
                  NotifKind.success, 120⟩ }, true)) ∧
    (id ∈ s.installed → s.games.lookup id = none →
      uninstall_game s id = none) := by
  refine ⟨fun hmem => ?_, fun g hmem hg => ?_, fun hmem hg => ?_⟩
  · unfold uninstall_game
    rw [if_neg hmem]
  · unfold uninstall_game
    rw [if_pos hmem]
    show (match s.games.lookup id with
      | none => none
      | some g =>
        some (show_notification
            (save_installed { s with installed := s.installed.erase id })
            (g.name ++ " removed!") NotifKind.success, true)) = _
    rw [hg]
    rfl
  · unfold uninstall_game
    rw [if_pos hmem]
    show (match s.games.lookup id with
      | none => none
      | some g =>
        some (show_notification
            (save_installed { s with installed := s.installed.erase id })
            (g.name ++ " removed!") NotifKind.success, true)) = _
    rw [hg]

/-- Witness for `uninstall_amended`: uninstalling "a" from an empty
library fails without touching the state, and uninstalling the installed
catalog id "a" removes it with a success notification. -/
theorem uninstall_amended_witness :
    uninstall_game ⟨[("a", (⟨"A", 4, "i"⟩ : GameDescriptor))], [], none,
        FileState.missing⟩ "a" =
      some (⟨[("a", ⟨"A", 4, "i"⟩)], [], none, FileState.missing⟩, false) ∧
    uninstall_game ⟨[("a", (⟨"A", 4, "i"⟩ : GameDescriptor))], ["a"], none,
        FileState.valid ["a"]⟩ "a" =
      some ({ games := [("a", ⟨"A", 4, "i"⟩)],
              installed := List.erase ["a"] "a",
              notification := some ⟨"A removed!", NotifKind.success, 120⟩,
              file := FileState.valid (List.erase ["a"] "a") }, true) :=
  ⟨(uninstall_amended
      ⟨[("a", ⟨"A", 4, "i"⟩)], [], none, FileState.missing⟩ "a").1 (by simp),
   (uninstall_amended
      ⟨[("a", ⟨"A", 4, "i"⟩)], ["a"], none, FileState.valid ["a"]⟩ "a").2.1
      ⟨"A", 4, "i"⟩ (by simp) (by decide)⟩

/-- Claim C7: `load_installed` never fails the caller: on a missing
persisted file and on malformed persisted content it returns the empty
library rather than propagating the error. -/
theorem load_installed_recovers :
    load_installed FileState.missing = [] ∧
    load_installed FileState.malformed = [] :=
  ⟨rfl, rfl⟩

/-- Claim C8: for every launcher state, `save_installed` followed by
`load_installed` yields exactly the saved installed sequence, order
preserved. -/
theorem save_load_roundtrip (s : GameLauncher) :
    load_installed (save_installed s).file = s.installed := rfl

/-! ### Helper lemmas about the notification countdown -/

/-- One tick of a notification whose timer is at least 2 decrements the
timer and keeps the message and kind. -/
theorem tick_notification_pos (m : String) (k : NotifKind) (t : Int)
    (ht : 1 < t) :
    tick_notification (some ⟨m, k, t⟩) = some ⟨m, k, t - 1⟩ := by
  have h : ¬ (t - 1 ≤ 0) := by omega
  simp only [tick_notification]
  rw [if_neg h]

/-- One tick of a notification whose timer is at most 1 clears it. -/
theorem tick_notification_last (m : String) (k : NotifKind) (t : Int)
    (ht : t ≤ 1) :
    tick_notification (some ⟨m, k, t⟩) = none := by
  have h : t - 1 ≤ 0 := by omega
  simp only [tick_notification]
  rw [if_pos h]

/-- Before the timer runs out, the notification is still present with its
original message and kind, its timer decremented once per tick. -/
theorem tick_iterate_lt (m : String) (k : NotifKind) :
    ∀ (j t : Nat), j < t →
      tick_notification^[j] (some ⟨m, k, (t : Int)⟩) =
        some ⟨m, k, ((t - j : Nat) : Int)⟩ := by
  intro j
  induction j with
  | zero => intro t _; simp
  | succ p ih =>
    intro t hlt
    rw [Function.iterate_succ_apply]
    rw [tick_notification_pos m k _ (by omega)]
    rw [show (t : Int) - 1 = ((t - 1 : Nat) : Int) by omega]
    rw [ih (t - 1) (by omega)]
    rw [show ((t - 1 - p : Nat) : Int) = ((t - (p + 1) : Nat) : Int) by omega]

/-- After exactly `timer` ticks the notification is cleared. -/
theorem tick_iterate_exact (m : String) (k : NotifKind) :
    ∀ t : Nat, 0 < t →
      tick_notification^[t] (some ⟨m, k, (t : Int)⟩) = none := by
  intro t ht
  obtain ⟨p, rfl⟩ : ∃ p, t = p + 1 := ⟨t - 1, by omega⟩
  rw [Function.iterate_succ_apply']
  rw [tick_iterate_lt m k p (p + 1) (by omega)]
  rw [show ((p + 1 - p : Nat) : Int) = (1 : Int) by omega]
  exact tick_notification_last m k 1 (by omega)

/-- Claim C9: the notification slot holds at most one notification and
`show_notification` overwrites whatever is pending (the first conjunct
holds for every prior state `s`, pending notification included); a
notification whose countdown starts at `t > 0` is still present with its
original message and kind after any `j < t` ticks, and is absent after
exactly `t` ticks.  `show_notification` always starts the countdown at
120, the case `t = 120`. -/
theorem notification_single_slot_and_ttl (s : GameLauncher) (m : String)
    (k : NotifKind) (t : Nat) (ht : 0 < t) :
    (show_notification s m k).notification = some ⟨m, k, 120⟩ ∧
    (∀ j : Nat, j < t →
      tick_notification^[j] (some ⟨m, k, (t : Int)⟩) =
        some ⟨m, k, ((t - j : Nat) : Int)⟩) ∧
    tick_notification^[t] (some ⟨m, k, (t : Int)⟩) = none :=
  ⟨rfl, fun j hj => tick_iterate_lt m k j t hj, tick_iterate_exact m k t ht⟩

/-- Witness for `notification_single_slot_and_ttl`: a new notification
overwrites a pending one, survives 1 of 2 ticks unchanged, and is gone
after 2 of 2 ticks. -/
theorem notification_single_slot_and_ttl_witness :
    (show_notification
        ⟨[], [], some ⟨"old", NotifKind.info, 7⟩, FileState.missing⟩
        "new" NotifKind.error).notification =
      some ⟨"new", NotifKind.error, 120⟩ ∧
    tick_notification^[1] (some ⟨"new", NotifKind.error, ((2 : Nat) : Int)⟩) =
      some ⟨"new", NotifKind.error, ((2 - 1 : Nat) : Int)⟩ ∧
    tick_notification^[2] (some ⟨"new", NotifKind.error, ((2 : Nat) : Int)⟩) =
      none := by
  obtain ⟨h1, h2, h3⟩ := notification_single_slot_and_ttl
    ⟨[], [], some ⟨"old", NotifKind.info, 7⟩, FileState.missing⟩
    "new" NotifKind.error 2 (by decide)
  exact ⟨h1, h2 1 (by decide), h3⟩

/-- Claim C10: calling `install_game` with an id that is neither installed
nor a catalog key raises an uncaught `KeyError` at the descriptor lookup
`self.games[game_id]['size']` (modelled as `none`): the three-outcome
contract implicitly requires the id to be a catalog key. -/
theorem install_unknown_id_raises (s : GameLauncher) (id : String)
    (hmem : id ∉ s.installed) (hg : s.games.lookup id = none) :
    install_game s id = none := by
  unfold install_game
  rw [if_neg hmem]
  simp [hg]

/-- Witness for `install_unknown_id_raises`: installing the unknown id
"z" into an empty library with an empty catalog. -/
theorem install_unknown_id_raises_witness :
    install_game ⟨[], [], none, FileState.missing⟩ "z" = none :=
  install_unknown_id_raises ⟨[], [], none, FileState.missing⟩ "z"
    (by simp) rfl

end MultiGames
